import Mathlib

/-!
Verification of the FIRE-Calculator repository: a shallow embedding of
`src/fire_calculator.py` (configuration validation, trajectory simulation,
Monte-Carlo return generation) and of the drifted simulator `get_wealth`
in `src/functions.py`, together with theorems about the embedded code.

Modelling conventions: Python floats are modelled as exact rationals `ℚ`;
the `numpy` noise draws of the return generator are modelled as an arbitrary
realization `noise : ℕ → ℚ` of the Gaussian draws; Python exceptions
(`ValueError`, `IndexError`) are modelled with `Except String`; `print`
calls do not affect results and are omitted.
-/

namespace FIRE

/-- Configuration record mirroring the fields of the Python dataclass
`FIREConfig` in `src/fire_calculator.py` (lines 10-20). -/
structure FIREConfig where
  yearly_wage : ℚ
  monthly_expenses : ℚ
  initial_capital : ℚ
  expected_return_rate : ℚ
  retirement_safe_withdrawal_rate : ℚ
  wage_growth_rate : ℚ
  non_wage_income : ℚ

/-- Derived yearly expenses, the Python property `FIREConfig.yearly_expenses`
(line 36): `monthly_expenses * 12`. -/
def FIREConfig.yearly_expenses (c : FIREConfig) : ℚ :=
  c.monthly_expenses * 12

/-- Validating construction of a configuration, embedding
`FIREConfig.__post_init__` (lines 22-31): the four checks run in source
order and raise `ValueError`, so no configuration object is produced on
failure. -/
def mkFIREConfig (yearly_wage monthly_expenses initial_capital
    expected_return_rate retirement_safe_withdrawal_rate
    wage_growth_rate non_wage_income : ℚ) : Except String FIREConfig :=
  if expected_return_rate ≤ 0 then
    .error "Expected return rate must be positive"
  else if retirement_safe_withdrawal_rate ≤ 0 then
    .error "Safe withdrawal rate must be positive"
  else if yearly_wage < 0 then
    .error "Yearly wage cannot be negative"
  else if monthly_expenses < 0 then
    .error "Monthly expenses cannot be negative"
  else
    .ok { yearly_wage := yearly_wage
          monthly_expenses := monthly_expenses
          initial_capital := initial_capital
          expected_return_rate := expected_return_rate
          retirement_safe_withdrawal_rate := retirement_safe_withdrawal_rate
          wage_growth_rate := wage_growth_rate
          non_wage_income := non_wage_income }

/-- Loop state of `FIRECalculator.calculate_fire_trajectory`: the Python
locals `total`, `yearly_wage`, `yearly_income`, `breakeven_year`,
`fire_achieved`, `last_million_milestone` and the two output lists
(lines 75-83). -/
structure TrajState where
  total : ℚ
  yearly_wage : ℚ
  yearly_income : ℚ
  breakeven_year : ℤ
  fire_achieved : Bool
  last_million_milestone : ℤ
  wealth_data : List (ℕ × ℚ)
  income_data : List (ℕ × ℚ)

/-- Initial loop state of `calculate_fire_trajectory` (lines 75-83);
`total // 1_000_000` is Python float floor division, i.e. `Rat.floor`. -/
def fireInit (cfg : FIREConfig) : TrajState :=
  { total := cfg.initial_capital
    yearly_wage := cfg.yearly_wage
    yearly_income := cfg.yearly_wage + cfg.non_wage_income
    breakeven_year := -1
    fire_achieved := false
    last_million_milestone := (cfg.initial_capital / 1000000).floor
    wealth_data := []
    income_data := [] }

/-- Per-year return-rate lookup shared by both simulators, the Python
expression `optional_returns[year] if optional_returns else default`:
`None` and the empty list are falsy and select the default rate; indexing
a nonempty list out of range raises `IndexError`. -/
def resolveRate (default : ℚ) (optional_returns : Option (List ℚ))
    (year : ℕ) : Except String ℚ :=
  match optional_returns with
  | none => .ok default
  | some rs =>
    if rs.isEmpty then .ok default
    else
      match rs.get? year with
      | some r => .ok r
      | none => .error "IndexError: list index out of range"

/-- Wage-growth / retirement branch of the trajectory loop (lines 93-100),
mapping the incoming `(yearly_wage, yearly_income)` to their values for the
current 0-based `year`. -/
def fireWage (cfg : FIREConfig) (retirement_year : ℤ) (year : ℕ)
    (wage income : ℚ) : ℚ × ℚ :=
  if (year : ℤ) < retirement_year - 1 then
    (wage + wage * cfg.wage_growth_rate, income + wage * cfg.wage_growth_rate)
  else
    (0, cfg.non_wage_income)

/-- Million-dollar milestone update of the trajectory loop (lines 106-109);
dead state that never reaches the output. -/
def fireMillion (last_million_milestone : ℤ) (total : ℚ) : ℤ :=
  if last_million_milestone < (total / 1000000).floor then
    (total / 1000000).floor
  else last_million_milestone

/-- One-shot FIRE latch of the trajectory loop (lines 114-121): when not yet
achieved and `passive_income + non_wage_income ≥ yearly_expenses`, record the
1-based year. -/
def fireLatch (cfg : FIREConfig) (year : ℕ) (passive_income : ℚ)
    (fire_achieved : Bool) (breakeven_year : ℤ) : Bool × ℤ :=
  if fire_achieved = false ∧
      cfg.yearly_expenses ≤ passive_income + cfg.non_wage_income then
    (true, (year : ℤ) + 1)
  else
    (fire_achieved, breakeven_year)

/-- Body of one iteration of the `calculate_fire_trajectory` loop
(lines 93-121) once the year's return rate has been resolved; `year` is the
0-based loop index. -/
def fireStepP (cfg : FIREConfig) (retirement_year : ℤ) (return_rate : ℚ)
    (year : ℕ) (s : TrajState) : TrajState :=
  let wi := fireWage cfg retirement_year year s.yearly_wage s.yearly_income
  let total := s.total + s.total * return_rate + wi.2 - cfg.yearly_expenses
  let passive_income := total * cfg.retirement_safe_withdrawal_rate
  let fb := fireLatch cfg year passive_income s.fire_achieved s.breakeven_year
  { total := total
    yearly_wage := wi.1
    yearly_income := wi.2
    breakeven_year := fb.2
    fire_achieved := fb.1
    last_million_milestone := fireMillion s.last_million_milestone total
    wealth_data := s.wealth_data ++ [(year + 1, total)]
    income_data := s.income_data ++ [(year + 1, passive_income)] }

/-- One iteration of the trajectory loop including the fallible return-rate
lookup (lines 85-91). -/
def fireStep (cfg : FIREConfig) (retirement_year : ℤ)
    (custom_returns : Option (List ℚ)) (year : ℕ) (s : TrajState) :
    Except String TrajState :=
  (resolveRate cfg.expected_return_rate custom_returns year).map fun r =>
    fireStepP cfg retirement_year r year s

/-- State after the first `k` iterations of the trajectory loop, i.e. after
years `0 … k-1` of `for year in range(num_years)`. -/
def fireRunE (cfg : FIREConfig) (retirement_year : ℤ)
    (custom_returns : Option (List ℚ)) : ℕ → Except String TrajState
  | 0 => .ok (fireInit cfg)
  | k + 1 => (fireRunE cfg retirement_year custom_returns k).bind
      (fireStep cfg retirement_year custom_returns k)

/-- Pure trajectory loop with the per-year return rates supplied as a
function; describes every run on which no lookup fails. -/
def fireRunP (cfg : FIREConfig) (retirement_year : ℤ) (rates : ℕ → ℚ) :
    ℕ → TrajState
  | 0 => fireInit cfg
  | k + 1 => fireStepP cfg retirement_year (rates k) k
      (fireRunP cfg retirement_year rates k)

/-- Embedding of `FIRECalculator.calculate_fire_trajectory` (lines 52-126):
the precondition check of line 72 followed by the year loop; returns the
wealth series, the passive-income series and the breakeven year. -/
def calculate_fire_trajectory (cfg : FIREConfig) (num_years : ℕ)
    (retirement_year : ℤ) (custom_returns : Option (List ℚ)) :
    Except String (List (ℕ × ℚ) × List (ℕ × ℚ) × ℤ) :=
  if (num_years : ℤ) < retirement_year then
    .error "Retirement year cannot be greater than simulation years"
  else
    (fireRunE cfg retirement_year custom_returns num_years).map fun s =>
      (s.wealth_data, s.income_data, s.breakeven_year)

/-- AR(1) deviation loop of `generate_monte_carlo_returns` (lines 154-160):
iteration `t` appends `phi * deviations[-1] + noise t`; the pair carries the
growing list and its last element. -/
def mcDeviations (initial_deviation phi : ℚ) (noise : ℕ → ℚ) :
    ℕ → List ℚ × ℚ
  | 0 => ([initial_deviation], initial_deviation)
  | t + 1 =>
    let p := mcDeviations initial_deviation phi noise t
    let new_deviation := phi * p.2 + noise (t + 1)
    (p.1 ++ [new_deviation], new_deviation)

/-- Embedding of `FIRECalculator.generate_monte_carlo_returns`
(lines 128-169): deviations from `target_return = expected_return_rate + 1`
follow an AR(1) process, are converted back by adding `target_return`, and
are floored elementwise at `min_return = 0.8`. The loop
`for _ in range(1, num_years)` performs `num_years - 1` iterations
(truncated ℕ subtraction, matching the empty Python range). -/
def generate_monte_carlo_returns (cfg : FIREConfig) (num_years : ℕ)
    (initial_return phi : ℚ) (noise : ℕ → ℚ) : List ℚ :=
  let target_return := cfg.expected_return_rate + 1
  let initial_deviation := initial_return - target_return
  let deviations := (mcDeviations initial_deviation phi noise (num_years - 1)).1
  let returns := deviations.map fun deviation => deviation + target_return
  returns.map fun r => max r (8 / 10)

/-- Deviation sequence exactly as the specification of the return generator
states it: `deviation 0 = initial_return − (1 + target)` and
`deviation (t+1) = phi * deviation t + noise (t+1)`, with
`target = expected_return_rate`. -/
def mcDevFun (cfg : FIREConfig) (initial_return phi : ℚ) (noise : ℕ → ℚ) :
    ℕ → ℚ
  | 0 => initial_return - (1 + cfg.expected_return_rate)
  | t + 1 => phi * mcDevFun cfg initial_return phi noise t + noise (t + 1)

/-- Configuration constructed in `main()` of `src/fire_calculator.py`
(lines 185-193). -/
def mainConfig : FIREConfig :=
  { yearly_wage := 80000
    monthly_expenses := 4000
    initial_capital := 50000
    expected_return_rate := 7 / 100
    retirement_safe_withdrawal_rate := 35 / 1000
    wage_growth_rate := 2 / 100
    non_wage_income := 0 }

/-- Wealth-series projection of a simulator result. -/
def trajWealth (r : Except String (List (ℕ × ℚ) × List (ℕ × ℚ) × ℤ)) :
    Option (List (ℕ × ℚ)) :=
  match r with
  | .ok t => some t.1
  | .error _ => none

/-- Income-series projection of a simulator result. -/
def trajIncome (r : Except String (List (ℕ × ℚ) × List (ℕ × ℚ) × ℤ)) :
    Option (List (ℕ × ℚ)) :=
  match r with
  | .ok t => some t.2.1
  | .error _ => none

/-- First year entry of an income series whose passive income plus non-wage
income covers yearly expenses, `-1` when there is none: the specification's
description of `breakeven_year`. -/
def firstBreakeven (cfg : FIREConfig) (income_data : List (ℕ × ℚ)) : ℤ :=
  match income_data.find? fun q =>
      decide (cfg.yearly_expenses ≤ q.2 + cfg.non_wage_income) with
  | some q => (q.1 : ℤ)
  | none => -1

/-- Boolean test that every per-year lookup into the optional returns list
performed by a `num_years`-year run succeeds: the list is absent, empty
(falsy), or at least `num_years` long. -/
def crOKb (optional_returns : Option (List ℚ)) (num_years : ℕ) : Bool :=
  match optional_returns with
  | none => true
  | some rs => rs.isEmpty || decide (num_years ≤ rs.length)

/-- Per-year rate actually used by a run on which every lookup succeeds. -/
def crRates (default : ℚ) (optional_returns : Option (List ℚ)) : ℕ → ℚ :=
  fun i =>
    match optional_returns with
    | none => default
    | some rs => if rs.isEmpty then default else rs.getD i default

/-- Python `int()` applied to a rational: truncation toward zero. -/
def pyTrunc (q : ℚ) : ℤ :=
  if q < 0 then -(-q).floor else q.floor

/-- Loop state of `get_wealth` in `src/functions.py`: the Python locals
`total`, `yearly_wage`, `yearly_income`, `breakeven_year`, `found_breakeven`,
`million_mult`, `first_million` and the two output lists (lines 34-43). -/
structure GWState where
  total : ℚ
  yearly_wage : ℚ
  yearly_income : ℚ
  breakeven_year : ℤ
  found_breakeven : Bool
  million_mult : ℤ
  first_million : Bool
  list_year_total : List (ℕ × ℚ)
  list_year_income : List (ℕ × ℚ)

/-- Parameter set of `get_wealth` (everything except the simulated horizon,
which drives the loop). -/
structure GWParams where
  retirement_year : ℤ
  yearly_wage : ℚ
  yearly_fixed_cost : ℚ
  yearly_real_rate : ℚ
  non_wage_income : ℚ
  initial_capital : ℚ
  wage_growth_rate : ℚ
  yearly_returns : Option (List ℚ)
  retirement_real_rate : ℚ

/-- Initial loop state of `get_wealth` (lines 34-43). -/
def gwInit (p : GWParams) : GWState :=
  { total := p.initial_capital
    yearly_wage := p.yearly_wage
    yearly_income := p.yearly_wage + p.non_wage_income
    breakeven_year := -1
    found_breakeven := false
    million_mult := 1
    first_million := false
    list_year_total := []
    list_year_income := [] }

/-- Wage-growth / retirement assignments of the `get_wealth` loop
(lines 51-57): growth is applied unconditionally, then `i == ret - 1`
overwrites wage and income; returns `(yearly_wage, yearly_income)`. -/
def gwWage (p : GWParams) (i : ℕ) (wage income : ℚ) : ℚ × ℚ :=
  let wage_growth := wage * p.wage_growth_rate
  let wage1 := wage + wage_growth
  let income1 := income + wage_growth
  if (i : ℤ) = p.retirement_year - 1 then (0, p.non_wage_income)
  else (wage1, income1)

/-- Million-dollar milestone update of `get_wealth` (lines 66-73); dead
state, with Python `int()` truncation; returns
`(first_million, million_mult)`. -/
def gwMillion (million_mult : ℤ) (first_million : Bool) (total : ℚ) :
    Bool × ℤ :=
  if million_mult < pyTrunc (total / 1000000) ∨
      (first_million = false ∧ 1000000 ≤ total) then
    (true, pyTrunc (total / 1000000))
  else
    (first_million, million_mult)

/-- One-shot breakeven latch of `get_wealth` (lines 75-81): a strict
comparison of `total * retirement_real_rate + non_wage_income` against the
fixed cost. -/
def gwLatch (p : GWParams) (i : ℕ) (total : ℚ) (found_breakeven : Bool)
    (breakeven_year : ℤ) : Bool × ℤ :=
  if p.yearly_fixed_cost < total * p.retirement_real_rate + p.non_wage_income ∧
      found_breakeven = false then
    (true, (i : ℤ) + 1)
  else
    (found_breakeven, breakeven_year)

/-- Body of one iteration of the `get_wealth` loop (lines 44-81) once the
year's return rate has been resolved; `i` is the 0-based loop index. -/
def gwStepP (p : GWParams) (return_rate : ℚ) (i : ℕ) (s : GWState) :
    GWState :=
  let wi := gwWage p i s.yearly_wage s.yearly_income
  let total := s.total + s.total * return_rate + wi.2 - p.yearly_fixed_cost
  let yearly_income_from_savings := total * p.yearly_real_rate
  let fm := gwMillion s.million_mult s.first_million total
  let fb := gwLatch p i total s.found_breakeven s.breakeven_year
  { total := total
    yearly_wage := wi.1
    yearly_income := wi.2
    breakeven_year := fb.2
    found_breakeven := fb.1
    million_mult := fm.2
    first_million := fm.1
    list_year_total := s.list_year_total ++ [(i + 1, total)]
    list_year_income := s.list_year_income ++ [(i + 1, yearly_income_from_savings)] }

/-- One iteration of the `get_wealth` loop including the fallible lookup
(lines 45-49), with the same truthiness and indexing semantics as the
canonical simulator. -/
def gwStep (p : GWParams) (i : ℕ) (s : GWState) : Except String GWState :=
  (resolveRate p.yearly_real_rate p.yearly_returns i).map fun r =>
    gwStepP p r i s

/-- State after the first `k` iterations of the `get_wealth` loop. -/
def gwRunE (p : GWParams) : ℕ → Except String GWState
  | 0 => .ok (gwInit p)
  | k + 1 => (gwRunE p k).bind (gwStep p k)

/-- Pure `get_wealth` loop with the per-year return rates supplied as a
function. -/
def gwRunP (p : GWParams) (rates : ℕ → ℚ) : ℕ → GWState
  | 0 => gwInit p
  | k + 1 => gwStepP p (rates k) k (gwRunP p rates k)

/-- Embedding of `get_wealth` in `src/functions.py` (lines 22-93): no
precondition check, then the year loop; returns the wealth series, the
income-from-savings series and the breakeven year. -/
def get_wealth (num_years_simulated : ℕ) (p : GWParams) :
    Except String (List (ℕ × ℚ) × List (ℕ × ℚ) × ℤ) :=
  (gwRunE p num_years_simulated).map fun s =>
    (s.list_year_total, s.list_year_income, s.breakeven_year)

/-- Parameter set for `get_wealth` that matches a canonical configuration:
same wage, fixed cost, rate, non-wage income, capital, growth rate, horizon
inputs and per-year returns; `retirement_real_rate` (used only for the
income series and the drifted breakeven comparison) stays free. -/
def gwParamsOf (cfg : FIREConfig) (retirement_year : ℤ)
    (yearly_returns : Option (List ℚ)) (retirement_real_rate : ℚ) :
    GWParams :=
  { retirement_year := retirement_year
    yearly_wage := cfg.yearly_wage
    yearly_fixed_cost := cfg.yearly_expenses
    yearly_real_rate := cfg.expected_return_rate
    non_wage_income := cfg.non_wage_income
    initial_capital := cfg.initial_capital
    wage_growth_rate := cfg.wage_growth_rate
    yearly_returns := yearly_returns
    retirement_real_rate := retirement_real_rate }

/-- Final wealth of a simulator run: the wealth value of the last entry of
the wealth series, when the run completes and the series is nonempty. -/
def finalWealth (cfg : FIREConfig) (num_years : ℕ) (retirement_year : ℤ)
    (custom_returns : Option (List ℚ)) : Option ℚ :=
  (trajWealth (calculate_fire_trajectory cfg num_years retirement_year
      custom_returns)).bind fun w => w.getLast?.map Prod.snd

/-- Breakeven/latch invariant of the trajectory loop state: `fire_achieved`
records whether some income entry already met the breakeven condition, and
`breakeven_year` is the year of the first such entry (`-1` when none). -/
def TrajInvariant (cfg : FIREConfig) (s : TrajState) : Prop :=
  s.fire_achieved = (s.income_data.find? fun q =>
    decide (cfg.yearly_expenses ≤ q.2 + cfg.non_wage_income)).isSome ∧
  s.breakeven_year = firstBreakeven cfg s.income_data

/-- Noise realization that is identically zero. -/
def zeroNoise : ℕ → ℚ := fun _ => 0

/-- Small valid configuration used to instantiate theorems on concrete
inputs: 100 starting capital, 100% return, 100% withdrawal rate, no wage
and no expenses. -/
def toyConfig : FIREConfig :=
  { yearly_wage := 0
    monthly_expenses := 0
    initial_capital := 100
    expected_return_rate := 1
    retirement_safe_withdrawal_rate := 1
    wage_growth_rate := 0
    non_wage_income := 0 }

/-- Valid configuration with zero starting capital and zero income:
expenses are 1000 a month and can never be covered. -/
def zeroCapConfig : FIREConfig :=
  { yearly_wage := 0
    monthly_expenses := 1000
    initial_capital := 0
    expected_return_rate := 7 / 100
    retirement_safe_withdrawal_rate := 4 / 100
    wage_growth_rate := 0
    non_wage_income := 0 }

end FIRE

namespace FIRE

/-- C7: configuration construction fails exactly when the return rate or the
safe withdrawal rate is nonpositive, or the wage or the monthly expenses are
negative; all other field values are accepted, and on failure no
configuration object is produced. -/
theorem mkFIREConfig_ok_iff (yearly_wage monthly_expenses initial_capital
    expected_return_rate retirement_safe_withdrawal_rate wage_growth_rate
    non_wage_income : ℚ) :
    (mkFIREConfig yearly_wage monthly_expenses initial_capital
        expected_return_rate retirement_safe_withdrawal_rate wage_growth_rate
        non_wage_income).isOk = true ↔
      0 < expected_return_rate ∧ 0 < retirement_safe_withdrawal_rate ∧
        0 ≤ yearly_wage ∧ 0 ≤ monthly_expenses := by
  unfold mkFIREConfig
  split_ifs with h1 h2 h3 h4
  · exact iff_of_false (by simp [Except.isOk, Except.toBool])
      fun hh => absurd hh.1 (not_lt.mpr h1)
  · exact iff_of_false (by simp [Except.isOk, Except.toBool])
      fun hh => absurd hh.2.1 (not_lt.mpr h2)
  · exact iff_of_false (by simp [Except.isOk, Except.toBool])
      fun hh => absurd hh.2.2.1 (not_le.mpr h3)
  · exact iff_of_false (by simp [Except.isOk, Except.toBool])
      fun hh => absurd hh.2.2.2 (not_le.mpr h4)
  · exact iff_of_true rfl
      ⟨not_le.mp h1, not_le.mp h2, not_lt.mp h3, not_lt.mp h4⟩

theorem mcDeviations_eq (cfg : FIREConfig) (initial_return phi : ℚ)
    (noise : ℕ → ℚ) :
    ∀ t, (mcDeviations (initial_return - (cfg.expected_return_rate + 1))
        phi noise t).2 = mcDevFun cfg initial_return phi noise t ∧
      (mcDeviations (initial_return - (cfg.expected_return_rate + 1))
        phi noise t).1 =
        (List.range (t + 1)).map (mcDevFun cfg initial_return phi noise)
  | 0 => by
    constructor
    · show initial_return - (cfg.expected_return_rate + 1) = _
      simp [mcDevFun]; ring
    · show [initial_return - (cfg.expected_return_rate + 1)] = _
      simp [List.range_succ, mcDevFun]; ring
  | t + 1 => by
    obtain ⟨h2, h1⟩ := mcDeviations_eq cfg initial_return phi noise t
    constructor
    · show phi * (mcDeviations _ phi noise t).2 + noise (t + 1) = _
      rw [h2]; rfl
    · show (mcDeviations _ phi noise t).1 ++
        [phi * (mcDeviations _ phi noise t).2 + noise (t + 1)] = _
      rw [h1, h2, List.range_succ (t + 1), List.map_append]
      rfl

/-- C1 (amended): the generator's output is in multiplier form, not rate
form: with `target = expected_return_rate`, the deviations satisfy
`deviation 0 = initial_return − (1 + target)` and
`deviation t = phi * deviation (t-1) + noise t`, but each output element is
`max (deviation t + (1 + target)) 0.8`, i.e. centered near `1 + target`
(e.g. 1.07), not near `target`. -/
theorem mc_output_form (cfg : FIREConfig) (initial_return phi : ℚ)
    (noise : ℕ → ℚ) (num_years : ℕ) (hn : 1 ≤ num_years) :
    generate_monte_carlo_returns cfg num_years initial_return phi noise =
      (List.range num_years).map fun t =>
        max (mcDevFun cfg initial_return phi noise t +
          (cfg.expected_return_rate + 1)) (8 / 10) := by
  simp only [generate_monte_carlo_returns]
  rw [(mcDeviations_eq cfg initial_return phi noise (num_years - 1)).2,
    Nat.sub_add_cancel hn, List.map_map, List.map_map]
  rfl

/-- C1 witness: a two-year realization with `noise 1 = 0`, evaluated
concretely from the amended theorem. -/
theorem mc_output_form_witness :
    generate_monte_carlo_returns mainConfig 2 (53/50) (49/50) zeroNoise =
      [53/50, 5301/5000] := by
  rw [mc_output_form mainConfig (53/50) (49/50) zeroNoise 2 (by norm_num)]
  norm_num [List.range_succ, mcDevFun, mainConfig, zeroNoise, max_def]

/-- C1 counterexample: for `num_years = 1` (no noise draws are used) and the
configured rate 0.07, the single output element is 1.06, not the rate-form
value `deviation 0 + target = 0.06` the claim requires. -/
theorem mc_rate_form_cex :
    generate_monte_carlo_returns mainConfig 1 (53/50) (49/50) zeroNoise =
        [53/50] ∧
      (53/50 : ℚ) ≠ (53/50 - (1 + mainConfig.expected_return_rate)) +
        mainConfig.expected_return_rate := by
  constructor
  · norm_num [generate_monte_carlo_returns, mcDeviations, mainConfig,
      max_def]
  · norm_num [mainConfig]

/-- C8: every element of the generator's output is at least the configured
minimum-return floor 0.8 (a −20% real return in multiplier form), whatever
the noise realization. -/
theorem mc_floor_ge (cfg : FIREConfig) (initial_return phi : ℚ)
    (noise : ℕ → ℚ) (num_years : ℕ) (_hn : 1 ≤ num_years) :
    ∀ r ∈ generate_monte_carlo_returns cfg num_years initial_return phi noise,
      (8 / 10 : ℚ) ≤ r := by
  intro r hr
  unfold generate_monte_carlo_returns at hr
  simp only [List.mem_map] at hr
  obtain ⟨x, -, rfl⟩ := hr
  exact le_max_right x (8 / 10)

/-- C8 witness: the floor bound evaluated on a concrete one-year output. -/
theorem mc_floor_ge_witness : (8 / 10 : ℚ) ≤ 53/50 :=
  mc_floor_ge mainConfig (53/50) (49/50) zeroNoise 1 (by norm_num) (53/50)
    (by norm_num [generate_monte_carlo_returns, mcDeviations, mainConfig,
      max_def])

end FIRE

namespace FIRE

theorem bindOk {α β : Type} (x : α) (f : α → Except String β) :
    (Except.ok x : Except String α).bind f = f x := rfl

theorem mapOk {α β : Type} (x : α) (f : α → β) :
    (Except.ok x : Except String α).map f = .ok (f x) := rfl

set_option maxHeartbeats 1000000 in
theorem main_run_year1 :
    (trajWealth (calculate_fire_trajectory mainConfig 30 15 none)).bind
        List.head? = some (1, 87100) ∧
    (trajIncome (calculate_fire_trajectory mainConfig 30 15 none)).bind
        List.head? = some (1, 6097/2) := by
  constructor <;>
    norm_num [calculate_fire_trajectory, fireRunE, fireStep, fireStepP,
      fireWage, fireLatch, fireInit, mainConfig, FIREConfig.yearly_expenses,
      resolveRate, Except.map, Except.bind, trajWealth, trajIncome]

/-- C2 (amended): for the `main()` configuration with `num_years = 30` and
`retirement_year = 15`, wage growth is applied before the year-1 wealth
update, so the year-1 wealth entry is
`50000 + 50000×0.07 + 81600 − 48000 = 87100` (not 85500) and the year-1
passive income is `87100 × 0.035 = 3048.5` (not 2992.5). -/
theorem year1_values :
    (trajWealth (calculate_fire_trajectory mainConfig 30 15 none)).bind
        List.head? = some (1, 87100) ∧
    (trajIncome (calculate_fire_trajectory mainConfig 30 15 none)).bind
        List.head? = some (1, 6097/2) :=
  main_run_year1

/-- C2 counterexample: the year-1 wealth entry differs from the claimed
85500 and the year-1 passive-income entry differs from the claimed 2992.5. -/
theorem year1_values_cex :
    (trajWealth (calculate_fire_trajectory mainConfig 30 15 none)).bind
        List.head? ≠ some (1, 85500) ∧
    (trajIncome (calculate_fire_trajectory mainConfig 30 15 none)).bind
        List.head? ≠ some (1, 5985/2) := by
  rw [main_run_year1.1, main_run_year1.2]
  norm_num

end FIRE

namespace FIRE

theorem resolveRate_ok (default : ℚ) (cr : Option (List ℚ)) (n i : ℕ)
    (hcr : crOKb cr n = true) (hi : i < n) :
    resolveRate default cr i = .ok (crRates default cr i) := by
  cases cr with
  | none => rfl
  | some rs =>
    by_cases he : rs.isEmpty
    · simp [resolveRate, crRates, he]
    · have hlen : n ≤ rs.length := by
        simp only [crOKb, he, Bool.false_or, decide_eq_true_eq] at hcr
        exact hcr
      have hi' : i < rs.length := lt_of_lt_of_le hi hlen
      obtain ⟨x, hx⟩ : ∃ x, rs.get? i = some x :=
        ⟨rs.get ⟨i, hi'⟩, List.get?_eq_get hi'⟩
      rw [List.get?_eq_getElem?] at hx
      simp [resolveRate, crRates, he, hx, List.getD_eq_getElem?_getD]

theorem fireRunE_ok (cfg : FIREConfig) (ret : ℤ) (cr : Option (List ℚ))
    (n : ℕ) (hcr : crOKb cr n = true) :
    ∀ k, k ≤ n → fireRunE cfg ret cr k =
      .ok (fireRunP cfg ret (crRates cfg.expected_return_rate cr) k)
  | 0, _ => rfl
  | k + 1, hk => by
    rw [fireRunE, fireRunE_ok cfg ret cr n hcr k (Nat.le_of_succ_le hk),
      bindOk, fireStep,
      resolveRate_ok cfg.expected_return_rate cr n k hcr
        (Nat.lt_of_lt_of_le (Nat.lt_succ_self k) hk),
      mapOk, fireRunP]

theorem fireRunE_err (cfg : FIREConfig) (ret : ℤ) (rs : List ℚ)
    (hne : rs.isEmpty = false) :
    ∀ k, rs.length < k →
      fireRunE cfg ret (some rs) k =
        .error "IndexError: list index out of range"
  | k + 1, hk => by
    rcases Nat.lt_or_ge rs.length k with h | h
    · rw [fireRunE, fireRunE_err cfg ret rs hne k h]; rfl
    · have hk' : rs.length = k := Nat.le_antisymm (Nat.lt_succ_iff.mp hk) h
      have hok := fireRunE_ok cfg ret (some rs) k
        (by simp [crOKb, hk']) k le_rfl
      rw [fireRunE, hok, bindOk, fireStep]
      have hnone : rs[k]? = none := by
        rw [← List.get?_eq_getElem?, List.get?_eq_none]; omega
      simp [resolveRate, hne, hnone, Except.map]

/-- C3 (amended): the only explicit validation error is
`retirement_year > num_years`, raised before any computation;
`retirement_year < 1` and `num_years < 1` are accepted. A nonempty
`custom_returns` shorter than `num_years` makes the loop raise an uncaught
`IndexError` partway through; an absent, empty or long-enough list is
accepted. Hence a call completes exactly when
`retirement_year ≤ num_years` and every per-year lookup succeeds. -/
theorem fire_error_iff (cfg : FIREConfig) (num_years : ℕ)
    (retirement_year : ℤ) (custom_returns : Option (List ℚ)) :
    (calculate_fire_trajectory cfg num_years retirement_year
        custom_returns).isOk = true ↔
      retirement_year ≤ (num_years : ℤ) ∧
        crOKb custom_returns num_years = true := by
  unfold calculate_fire_trajectory
  split_ifs with hg
  · exact iff_of_false (by simp [Except.isOk, Except.toBool])
      fun hh => absurd hh.1 (not_le.mpr hg)
  · by_cases hcr : crOKb custom_returns num_years = true
    · rw [fireRunE_ok cfg retirement_year custom_returns num_years hcr
        num_years le_rfl, mapOk]
      exact iff_of_true rfl ⟨not_lt.mp hg, hcr⟩
    · have hcrb : crOKb custom_returns num_years = false :=
        Bool.not_eq_true _ ▸ Bool.of_not_eq_true hcr
      cases custom_returns with
      | none => simp [crOKb] at hcrb
      | some rs =>
        have he : rs.isEmpty = false := by
          cases hie : rs.isEmpty
          · rfl
          · rw [crOKb, hie] at hcrb; exact absurd hcrb (by simp)
        have hlen : rs.length < num_years := by
          by_contra hc
          rw [crOKb, he] at hcrb
          simp [Nat.le_of_not_lt hc] at hcrb
        rw [fireRunE_err cfg retirement_year rs he num_years hlen]
        exact iff_of_false (by simp [Except.isOk, Except.toBool, Except.map])
          fun hh => by rw [hcrb] at hh; exact absurd hh.2 (by simp)

/-- C3 counterexample: `retirement_year = 0 < 1` with `num_years = 1` is
accepted by the code and completes, while the claim requires an
`InvalidParameters` failure. -/
theorem fire_error_iff_cex :
    (calculate_fire_trajectory mainConfig 1 0 none).isOk = true := by
  norm_num [calculate_fire_trajectory, fireRunE, fireStep, fireStepP,
    fireWage, fireLatch, fireInit, mainConfig, FIREConfig.yearly_expenses,
    resolveRate, Except.map, Except.bind, Except.isOk, Except.toBool]

end FIRE

namespace FIRE

theorem fireStepP_inv (cfg : FIREConfig) (ret : ℤ) (r : ℚ) (year : ℕ)
    (s : TrajState) (h : TrajInvariant cfg s) :
    TrajInvariant cfg (fireStepP cfg ret r year s) := by
  obtain ⟨hf, hb⟩ := h
  have hincome :
      (fireStepP cfg ret r year s).income_data =
        s.income_data ++
          [(year + 1,
            (s.total + s.total * r +
              (fireWage cfg ret year s.yearly_wage s.yearly_income).2 -
                cfg.yearly_expenses) *
              cfg.retirement_safe_withdrawal_rate)] := rfl
  set passive :=
    (s.total + s.total * r +
      (fireWage cfg ret year s.yearly_wage s.yearly_income).2 -
        cfg.yearly_expenses) * cfg.retirement_safe_withdrawal_rate with hpassive
  cases hfa : s.fire_achieved with
  | true =>
    rw [hfa] at hf
    obtain ⟨q, hq⟩ := Option.isSome_iff_exists.mp hf.symm
    constructor
    · show (fireLatch cfg year passive s.fire_achieved s.breakeven_year).1 = _
      rw [hincome, List.find?_append, hq, Option.or_some, fireLatch, hfa]
      simp
    · show (fireLatch cfg year passive s.fire_achieved s.breakeven_year).2 = _
      rw [fireLatch, hfa, firstBreakeven, hincome, List.find?_append, hq,
        Option.or_some]
      simp only [Bool.true_eq_false, false_and, if_false]
      rw [hb, firstBreakeven, hq]
  | false =>
    rw [hfa] at hf
    have hnone : (s.income_data.find? fun q =>
        decide (cfg.yearly_expenses ≤ q.2 + cfg.non_wage_income)) = none :=
      Option.not_isSome_iff_eq_none.mp (by rw [← hf]; simp)
    by_cases hP : cfg.yearly_expenses ≤ passive + cfg.non_wage_income
    · constructor
      · show (fireLatch cfg year passive s.fire_achieved s.breakeven_year).1 = _
        rw [hincome, List.find?_append, hnone, Option.none_or, fireLatch, hfa]
        simp [hP]
      · show (fireLatch cfg year passive s.fire_achieved s.breakeven_year).2 = _
        rw [fireLatch, hfa, firstBreakeven, hincome, List.find?_append, hnone,
          Option.none_or]
        simp [hP]
    · constructor
      · show (fireLatch cfg year passive s.fire_achieved s.breakeven_year).1 = _
        rw [hincome, List.find?_append, hnone, Option.none_or, fireLatch, hfa]
        simp [hP]
      · show (fireLatch cfg year passive s.fire_achieved s.breakeven_year).2 = _
        rw [fireLatch, hfa, firstBreakeven, hincome, List.find?_append, hnone,
          Option.none_or]
        simp only [hP, and_false, if_false]
        rw [hb, firstBreakeven, hnone]
        simp [hP]

theorem fireRunE_inv (cfg : FIREConfig) (ret : ℤ) (cr : Option (List ℚ)) :
    ∀ k s, fireRunE cfg ret cr k = .ok s → TrajInvariant cfg s
  | 0, s, h => by
    rw [fireRunE, Except.ok.injEq] at h
    subst h
    exact ⟨by simp [fireInit], by simp [fireInit, firstBreakeven]⟩
  | k + 1, s, h => by
    rw [fireRunE] at h
    cases hE : fireRunE cfg ret cr k with
    | error e => rw [hE] at h; exact absurd h (by simp [Except.bind])
    | ok s0 =>
      rw [hE, bindOk, fireStep] at h
      cases hR : resolveRate cfg.expected_return_rate cr k with
      | error e => rw [hR] at h; exact absurd h (by simp [Except.map])
      | ok r =>
        rw [hR, mapOk, Except.ok.injEq] at h
        subst h
        exact fireStepP_inv cfg ret r k s0 (fireRunE_inv cfg ret cr k s0 hE)

theorem calc_ok_elim (cfg : FIREConfig) (n : ℕ) (ret : ℤ)
    (cr : Option (List ℚ)) (w inc : List (ℕ × ℚ)) (b : ℤ)
    (h : calculate_fire_trajectory cfg n ret cr = .ok (w, inc, b)) :
    ∃ s, fireRunE cfg ret cr n = .ok s ∧ s.wealth_data = w ∧
      s.income_data = inc ∧ s.breakeven_year = b := by
  rw [calculate_fire_trajectory] at h
  by_cases hg : (n : ℤ) < ret
  · rw [if_pos hg] at h; exact absurd h (by simp)
  · rw [if_neg hg] at h
    cases hE : fireRunE cfg ret cr n with
    | error e => rw [hE] at h; exact absurd h (by simp [Except.map])
    | ok s =>
      rw [hE, mapOk, Except.ok.injEq, Prod.mk.injEq, Prod.mk.injEq] at h
      exact ⟨s, rfl, h.1, h.2.1, h.2.2⟩

/-- C4: for every run that completes, the returned breakeven year is the
year index of the first income entry whose passive income plus non-wage
income meets yearly expenses, and `-1` when no entry does; the one-shot
latch means later entries can never change it. -/
theorem breakeven_first (cfg : FIREConfig) (num_years : ℕ)
    (retirement_year : ℤ) (custom_returns : Option (List ℚ))
    (w inc : List (ℕ × ℚ)) (b : ℤ)
    (h : calculate_fire_trajectory cfg num_years retirement_year
      custom_returns = .ok (w, inc, b)) :
    b = firstBreakeven cfg inc := by
  obtain ⟨s, hE, -, hinc, hb⟩ :=
    calc_ok_elim cfg num_years retirement_year custom_returns w inc b h
  rw [← hb, ← hinc]
  exact (fireRunE_inv cfg retirement_year custom_returns num_years s hE).2

/-- C4 witness: a one-year run of the toy configuration achieves breakeven
in year 1, matching the first qualifying income entry. -/
theorem breakeven_first_witness :
    (1 : ℤ) = firstBreakeven toyConfig [(1, 200)] :=
  breakeven_first toyConfig 1 1 none [(1, 200)] [(1, 200)] 1 (by
    norm_num [calculate_fire_trajectory, fireRunE, fireStep, fireStepP,
      fireWage, fireLatch, fireInit, toyConfig, FIREConfig.yearly_expenses,
      resolveRate, Except.map, Except.bind])

end FIRE

namespace FIRE

theorem range'_concat_one (s n : ℕ) :
    List.range' s (n + 1) = List.range' s n ++ [s + n] := by
  have h := @List.range'_concat 1 s n
  simpa using h

theorem fireRunE_series (cfg : FIREConfig) (ret : ℤ) (cr : Option (List ℚ)) :
    ∀ k s, fireRunE cfg ret cr k = .ok s →
      s.wealth_data.map Prod.fst = List.range' 1 k ∧
      s.income_data = s.wealth_data.map fun q =>
        (q.1, q.2 * cfg.retirement_safe_withdrawal_rate)
  | 0, s, h => by
    rw [fireRunE, Except.ok.injEq] at h
    subst h
    exact ⟨rfl, rfl⟩
  | k + 1, s, h => by
    rw [fireRunE] at h
    cases hE : fireRunE cfg ret cr k with
    | error e => rw [hE] at h; exact absurd h (by simp [Except.bind])
    | ok s0 =>
      rw [hE, bindOk, fireStep] at h
      cases hR : resolveRate cfg.expected_return_rate cr k with
      | error e => rw [hR] at h; exact absurd h (by simp [Except.map])
      | ok r =>
        rw [hR, mapOk, Except.ok.injEq] at h
        subst h
        obtain ⟨ih1, ih2⟩ := fireRunE_series cfg ret cr k s0 hE
        constructor
        · simp only [fireStepP]
          rw [List.map_append, ih1, range'_concat_one]
          simp [Nat.add_comm]
        · simp only [fireStepP]
          rw [List.map_append, ih2]
          rfl

/-- C5: a completed run returns wealth and income series of exactly
`num_years` entries each, with year indices `1..num_years` strictly
increasing, and each income entry is the matching wealth entry scaled by
the safe withdrawal rate. -/
theorem series_shape (cfg : FIREConfig) (num_years : ℕ)
    (retirement_year : ℤ) (custom_returns : Option (List ℚ))
    (w inc : List (ℕ × ℚ)) (b : ℤ)
    (h : calculate_fire_trajectory cfg num_years retirement_year
      custom_returns = .ok (w, inc, b)) :
    w.length = num_years ∧ inc.length = num_years ∧
    w.map Prod.fst = List.range' 1 num_years ∧
    inc.map Prod.fst = List.range' 1 num_years ∧
    inc = w.map fun q => (q.1, q.2 * cfg.retirement_safe_withdrawal_rate) := by
  obtain ⟨s, hE, hw, hinc, -⟩ :=
    calc_ok_elim cfg num_years retirement_year custom_returns w inc b h
  obtain ⟨h1, h2⟩ :=
    fireRunE_series cfg retirement_year custom_returns num_years s hE
  rw [hw] at h1
  rw [hw, hinc] at h2
  have hwlen : w.length = num_years := by
    have := congrArg List.length h1
    simpa using this
  have hincfst : inc.map Prod.fst = List.range' 1 num_years := by
    rw [h2, List.map_map]
    exact h1
  exact ⟨hwlen, by rw [h2]; simpa using hwlen, h1, hincfst, h2⟩

/-- C5 witness: the shape facts evaluated on a one-year run of the toy
configuration. -/
theorem series_shape_witness :
    [((1 : ℕ), (200 : ℚ))].length = 1 ∧
    [((1 : ℕ), (200 : ℚ))].length = 1 ∧
    [((1 : ℕ), (200 : ℚ))].map Prod.fst = List.range' 1 1 ∧
    [((1 : ℕ), (200 : ℚ))].map Prod.fst = List.range' 1 1 ∧
    [((1 : ℕ), (200 : ℚ))] = [((1 : ℕ), (200 : ℚ))].map fun q =>
      (q.1, q.2 * toyConfig.retirement_safe_withdrawal_rate) :=
  series_shape toyConfig 1 1 none [(1, 200)] [(1, 200)] 1 (by
    norm_num [calculate_fire_trajectory, fireRunE, fireStep, fireStepP,
      fireWage, fireLatch, fireInit, toyConfig, FIREConfig.yearly_expenses,
      resolveRate, Except.map, Except.bind])

/-- C6: from year `retirement_year` on, the income term entering the wealth
update is exactly `non_wage_income` and the wage is 0, so re-entering the
retirement branch in later years changes nothing. -/
theorem retirement_income_zero (cfg : FIREConfig) (retirement_year : ℤ)
    (rates : ℕ → ℚ) (k : ℕ) (hk : retirement_year ≤ (k : ℤ) + 1) :
    (fireRunP cfg retirement_year rates (k + 1)).yearly_income =
      cfg.non_wage_income ∧
    (fireRunP cfg retirement_year rates (k + 1)).yearly_wage = 0 ∧
    (fireRunP cfg retirement_year rates (k + 1)).total =
      (fireRunP cfg retirement_year rates k).total +
        (fireRunP cfg retirement_year rates k).total * rates k +
        cfg.non_wage_income - cfg.yearly_expenses := by
  have hno : ¬ ((k : ℤ) < retirement_year - 1) := by omega
  simp [fireRunP, fireStepP, fireWage, hno]

/-- C6 witness: the retirement income facts evaluated for the `main()`
configuration retiring in year 1, at year 1. -/
theorem retirement_income_zero_witness :
    (fireRunP mainConfig 1 zeroNoise 1).yearly_income =
      mainConfig.non_wage_income ∧
    (fireRunP mainConfig 1 zeroNoise 1).yearly_wage = 0 ∧
    (fireRunP mainConfig 1 zeroNoise 1).total =
      (fireRunP mainConfig 1 zeroNoise 0).total +
        (fireRunP mainConfig 1 zeroNoise 0).total * zeroNoise 0 +
        mainConfig.non_wage_income - mainConfig.yearly_expenses :=
  retirement_income_zero mainConfig 1 zeroNoise 0 (by norm_num)

end FIRE

namespace FIRE

theorem fireRunP_wealth_last (cfg : FIREConfig) (ret : ℤ) (rates : ℕ → ℚ)
    (k : ℕ) :
    (fireRunP cfg ret rates (k + 1)).wealth_data.getLast? =
      some (k + 1, (fireRunP cfg ret rates (k + 1)).total) := by
  simp only [fireRunP, fireStepP]
  rw [List.getLast?_concat]

theorem fireRunP_congr (cfg : FIREConfig) (ret : ℤ) (r1 r2 : ℕ → ℚ) :
    ∀ k, (∀ i, i < k → r1 i = r2 i) →
      fireRunP cfg ret r1 k = fireRunP cfg ret r2 k
  | 0, _ => rfl
  | k + 1, h => by
    rw [fireRunP, fireRunP, h k (Nat.lt_succ_self k),
      fireRunP_congr cfg ret r1 r2 k fun i hi => h i (Nat.lt_succ_of_lt hi)]

theorem income_rate_indep (cfg : FIREConfig) (ret : ℤ) (r1 r2 : ℕ → ℚ) :
    ∀ k, (fireRunP cfg ret r1 k).yearly_income =
        (fireRunP cfg ret r2 k).yearly_income ∧
      (fireRunP cfg ret r1 k).yearly_wage =
        (fireRunP cfg ret r2 k).yearly_wage
  | 0 => ⟨rfl, rfl⟩
  | k + 1 => by
    obtain ⟨h1, h2⟩ := income_rate_indep cfg ret r1 r2 k
    simp only [fireRunP, fireStepP]
    rw [h1, h2]
    exact ⟨rfl, rfl⟩

theorem zeros_gap (cfg : FIREConfig) (ret : ℤ) (n : ℕ)
    (hc : 0 < cfg.initial_capital) (he : cfg.expected_return_rate = 7 / 100)
    (hz : ∀ k, k < n → 0 ≤ (fireRunP cfg ret (fun _ => 0) k).total) :
    ∀ k, 1 ≤ k → k ≤ n →
      (fireRunP cfg ret (fun _ => 0) k).total <
        (fireRunP cfg ret (fun _ => cfg.expected_return_rate) k).total := by
  have hfe : (fun _ : ℕ => cfg.expected_return_rate) =
      fun _ : ℕ => (7 : ℚ) / 100 := funext fun _ => he
  rw [hfe]
  intro k
  induction k with
  | zero => omega
  | succ k ih =>
    intro _ hk
    rcases Nat.eq_zero_or_pos k with rfl | hkpos
    · simp only [fireRunP, fireStepP, fireInit]
      have : (0 : ℚ) < cfg.initial_capital * (7 / 100) :=
        mul_pos hc (by norm_num)
      nlinarith
    · have ihk := ih hkpos (Nat.le_of_succ_le hk)
      obtain ⟨hI, hW⟩ :=
        income_rate_indep cfg ret (fun _ => 0)
          (fun _ => (7 : ℚ) / 100) k
      have hzk := hz k (Nat.lt_of_succ_le hk)
      simp only [fireRunP, fireStepP]
      rw [hI, hW]
      have hdpos : (0 : ℚ) <
          (fireRunP cfg ret (fun _ => (7 : ℚ) / 100) k).total * (7 / 100) :=
        mul_pos (lt_of_le_of_lt hzk ihk) (by norm_num)
      nlinarith

theorem finalWealth_eq (cfg : FIREConfig) (ret : ℤ) (n : ℕ) (hn : 1 ≤ n)
    (cr : Option (List ℚ)) (hg : ret ≤ (n : ℤ))
    (hcr : crOKb cr n = true) :
    finalWealth cfg n ret cr =
      some ((fireRunP cfg ret (crRates cfg.expected_return_rate cr) n).total) := by
  unfold finalWealth calculate_fire_trajectory
  rw [if_neg (not_lt.mpr hg), fireRunE_ok cfg ret cr n hcr n le_rfl, mapOk]
  obtain ⟨m, rfl⟩ : ∃ m, n = m + 1 := ⟨n - 1, by omega⟩
  simp only [trajWealth, Option.some_bind]
  rw [fireRunP_wealth_last]
  rfl

/-- C9 (amended): with the 7% default rate, an all-zero `custom_returns`
run ends with strictly lower final wealth than the default run, provided
the starting capital is positive and the zero-return run's wealth never
goes negative before the final year; without those provisos the two runs
can tie (e.g. zero capital) or even reverse (wealth compounding while
negative). -/
theorem zeros_lower_final (cfg : FIREConfig) (num_years : ℕ)
    (retirement_year : ℤ)
    (h1 : 1 ≤ retirement_year) (h2 : retirement_year ≤ (num_years : ℤ))
    (hn : 1 ≤ num_years)
    (he : cfg.expected_return_rate = 7 / 100)
    (hc : 0 < cfg.initial_capital)
    (hz : ∀ k, k < num_years →
      0 ≤ (fireRunP cfg retirement_year (fun _ => 0) k).total)
    (wz wd : ℚ)
    (hwz : finalWealth cfg num_years retirement_year
      (some (List.replicate num_years 0)) = some wz)
    (hwd : finalWealth cfg num_years retirement_year none = some wd) :
    wz < wd := by
  have hne : (List.replicate num_years (0 : ℚ)).isEmpty = false := by
    cases hh : List.replicate num_years (0 : ℚ) with
    | nil => exact absurd (congrArg List.length hh) (by simp; omega)
    | cons a tl => rfl
  have hcrz : crOKb (some (List.replicate num_years 0)) num_years = true := by
    simp [crOKb]
  have hrate : ∀ i, i < num_years →
      crRates cfg.expected_return_rate
        (some (List.replicate num_years 0)) i = 0 := by
    intro i hi
    simp [crRates, hne, List.getD_eq_getElem?_getD, List.getElem?_replicate, hi]
  rw [finalWealth_eq cfg retirement_year num_years hn _ h2 hcrz,
    Option.some.injEq] at hwz
  rw [finalWealth_eq cfg retirement_year num_years hn none h2 rfl,
    Option.some.injEq] at hwd
  rw [fireRunP_congr cfg retirement_year _ (fun _ => 0) num_years hrate]
    at hwz
  rw [← hwz, ← hwd]
  exact zeros_gap cfg retirement_year num_years hc he hz num_years hn le_rfl

/-- C9 witness: the `main()` configuration over one year retiring
immediately: the zero-return run ends at 2000, the 7% run at 5500. -/
theorem zeros_lower_final_witness : (2000 : ℚ) < 5500 :=
  zeros_lower_final mainConfig 1 1 (by norm_num) (by norm_num) (by norm_num)
    (by norm_num [mainConfig]) (by norm_num [mainConfig])
    (by
      intro k hk
      have hk0 : k = 0 := by omega
      subst hk0
      norm_num [fireRunP, fireInit, mainConfig])
    2000 5500
    (by
      norm_num [finalWealth, calculate_fire_trajectory, fireRunE, fireStep,
        fireStepP, fireWage, fireInit, mainConfig, FIREConfig.yearly_expenses,
        resolveRate, Except.map, Except.bind, trajWealth, List.replicate,
        Option.some_bind])
    (by
      norm_num [finalWealth, calculate_fire_trajectory, fireRunE, fireStep,
        fireStepP, fireWage, fireInit, mainConfig, FIREConfig.yearly_expenses,
        resolveRate, Except.map, Except.bind, trajWealth, Option.some_bind])

end FIRE

namespace FIRE

theorem gwRunE_ok (p : GWParams) (n : ℕ)
    (hcr : crOKb p.yearly_returns n = true) :
    ∀ k, k ≤ n → gwRunE p k =
      .ok (gwRunP p (crRates p.yearly_real_rate p.yearly_returns) k)
  | 0, _ => rfl
  | k + 1, hk => by
    rw [gwRunE, gwRunE_ok p n hcr k (Nat.le_of_succ_le hk), bindOk, gwStep,
      resolveRate_ok p.yearly_real_rate p.yearly_returns n k hcr
        (Nat.lt_of_lt_of_le (Nat.lt_succ_self k) hk),
      mapOk, gwRunP]

theorem fire_gw_states (cfg : FIREConfig) (ret : ℤ) (cr : Option (List ℚ))
    (rr : ℚ) (rates : ℕ → ℚ) (h1 : 1 ≤ ret) :
    ∀ k,
      (fireRunP cfg ret rates k).total =
        (gwRunP (gwParamsOf cfg ret cr rr) rates k).total ∧
      (fireRunP cfg ret rates k).yearly_wage =
        (gwRunP (gwParamsOf cfg ret cr rr) rates k).yearly_wage ∧
      (fireRunP cfg ret rates k).yearly_income =
        (gwRunP (gwParamsOf cfg ret cr rr) rates k).yearly_income ∧
      (fireRunP cfg ret rates k).wealth_data =
        (gwRunP (gwParamsOf cfg ret cr rr) rates k).list_year_total ∧
      (ret ≤ (k : ℤ) →
        (fireRunP cfg ret rates k).yearly_wage = 0 ∧
        (fireRunP cfg ret rates k).yearly_income = cfg.non_wage_income)
  | 0 => ⟨rfl, rfl, rfl, rfl, fun hle => absurd hle (by omega)⟩
  | k + 1 => by
    obtain ⟨ht, hw, hi, hl, hr⟩ := fire_gw_states cfg ret cr rr rates h1 k
    have hwage :
        fireWage cfg ret k (fireRunP cfg ret rates k).yearly_wage
            (fireRunP cfg ret rates k).yearly_income =
          gwWage (gwParamsOf cfg ret cr rr) k
            (gwRunP (gwParamsOf cfg ret cr rr) rates k).yearly_wage
            (gwRunP (gwParamsOf cfg ret cr rr) rates k).yearly_income := by
      rw [← hw, ← hi]
      rcases lt_trichotomy ((k : ℤ)) (ret - 1) with hlt | heq | hgt
      · rw [fireWage, if_pos hlt]
        simp only [gwWage, gwParamsOf]
        rw [if_neg (show ¬ ((k : ℤ) = ret - 1) by omega)]
      · rw [fireWage, if_neg (by omega)]
        simp only [gwWage, gwParamsOf]
        rw [if_pos heq]
      · obtain ⟨hw0, hinw⟩ := hr (by omega)
        rw [fireWage, if_neg (by omega), hw0, hinw]
        simp only [gwWage, gwParamsOf]
        rw [if_neg (show ¬ ((k : ℤ) = ret - 1) by omega)]
        show ((0 : ℚ), cfg.non_wage_income) = (0 + 0 * _, cfg.non_wage_income + 0 * _)
        norm_num
    refine ⟨?_, ?_, ?_, ?_, ?_⟩
    · simp only [fireRunP, gwRunP, fireStepP, gwStepP]
      rw [ht, hwage]
      rfl
    · simp only [fireRunP, gwRunP, fireStepP, gwStepP]
      rw [hwage]
    · simp only [fireRunP, gwRunP, fireStepP, gwStepP]
      rw [hwage]
    · simp only [fireRunP, gwRunP, fireStepP, gwStepP]
      rw [ht, hwage, hl]
      rfl
    · intro hle
      simp only [fireRunP, fireStepP, fireWage]
      rw [if_neg (by omega : ¬ ((k : ℤ) < ret - 1))]
      exact ⟨rfl, rfl⟩

/-- C10: for matching parameters (same wage, expenses, capital, rates,
growth, horizon, retirement year and per-year returns, with the retirement
year in `1..num_years`), the drifted `get_wealth` simulator and the
canonical trajectory simulator produce identical wealth series. -/
theorem get_wealth_refines (cfg : FIREConfig) (num_years : ℕ) (ret : ℤ)
    (cr : Option (List ℚ)) (rr : ℚ)
    (h1 : 1 ≤ ret) (h2 : ret ≤ (num_years : ℤ))
    (hcr : crOKb cr num_years = true) :
    trajWealth (calculate_fire_trajectory cfg num_years ret cr) =
      trajWealth (get_wealth num_years (gwParamsOf cfg ret cr rr)) := by
  unfold calculate_fire_trajectory get_wealth
  rw [if_neg (not_lt.mpr h2),
    fireRunE_ok cfg ret cr num_years hcr num_years le_rfl, mapOk,
    gwRunE_ok (gwParamsOf cfg ret cr rr) num_years hcr num_years le_rfl,
    mapOk]
  simp only [trajWealth]
  exact congrArg some
    ((fire_gw_states cfg ret cr rr
      (crRates cfg.expected_return_rate cr) h1 num_years).2.2.2.1)

/-- C10 witness: a concrete one-year run of both simulators with the
`main()` parameters, retiring in year 1. -/
theorem get_wealth_refines_witness :
    trajWealth (calculate_fire_trajectory mainConfig 1 1 none) =
      trajWealth (get_wealth 1 (gwParamsOf mainConfig 1 none (6 / 100))) :=
  get_wealth_refines mainConfig 1 1 none (6 / 100) (by norm_num)
    (by norm_num) rfl

end FIRE

namespace FIRE

/-- C9 counterexample: with a valid configuration whose starting capital is
zero, the all-zero custom-returns run and the default 7% run end at the same
final wealth (−12000), so the zero-returns run is not strictly lower. -/
theorem zeros_lower_cex :
    mkFIREConfig 0 1000 0 (7 / 100) (4 / 100) 0 0 = .ok zeroCapConfig ∧
    finalWealth zeroCapConfig 1 1 (some [0]) = some (-12000) ∧
    finalWealth zeroCapConfig 1 1 none = some (-12000) ∧
    ¬ ((-12000 : ℚ) < -12000) := by
  refine ⟨?_, ?_, ?_, lt_irrefl _⟩
  · norm_num [mkFIREConfig, zeroCapConfig]
  · norm_num [finalWealth, calculate_fire_trajectory, fireRunE, fireStep,
      fireStepP, fireWage, fireInit, zeroCapConfig,
      FIREConfig.yearly_expenses, resolveRate, Except.map, Except.bind,
      trajWealth, Option.some_bind]
  · norm_num [finalWealth, calculate_fire_trajectory, fireRunE, fireStep,
      fireStepP, fireWage, fireInit, zeroCapConfig,
      FIREConfig.yearly_expenses, resolveRate, Except.map, Except.bind,
      trajWealth, Option.some_bind]

end FIRE
